import Mathlib

/-!
Shallow embedding of the moderation bot `main.py`: the document store
(three collections: users, warnings, groups), the persistence-layer
functions, the admin check, the command handlers and one cycle of the
`auto_ban_inactive_users` background sweep.  Remote calls (role lookup,
ban/unban, user resolution, time formatting) are passed in as oracle
parameters; store documents are Lean structures, collections are lists
kept in insertion order (Mongo natural order).
-/

/-- A document of the `users` collection: `{user_id, username, first_name, last_name}`. -/
structure UserDoc where
  user_id : Int
  username : Option String
  first_name : Option String
  last_name : Option String
deriving Repr, DecidableEq

/-- A document of the `groups` collection: `{chat_id, title}`. -/
structure GroupDoc where
  chat_id : Int
  title : Option String
deriving Repr, DecidableEq

/-- A document of the `warnings` collection:
`{user_id, chat_id, timestamp, reason}`. -/
structure WarningDoc where
  user_id : Int
  chat_id : Int
  timestamp : Int
  reason : String
deriving Repr, DecidableEq

/-- The whole document store: the three collections, each in insertion
(natural) order. -/
structure Store where
  users : List UserDoc
  warnings : List WarningDoc
  groups : List GroupDoc
deriving Repr, DecidableEq

/-- Replace the first element satisfying `p` by `f` applied to it
(Mongo `update_one` on an existing document). -/
def updateFirst (p : α → Bool) (f : α → α) : List α → List α
  | [] => []
  | x :: xs => if p x then f x :: xs else x :: updateFirst p f xs

/-- `add_user`: `users_col.update_one({"user_id": user.id}, {"$set": …}, upsert=True)`.
All profile fields are overwritten; if no document matches, one is inserted. -/
def add_user (u : UserDoc) (s : Store) : Store :=
  if s.users.any (fun v => v.user_id == u.user_id) then
    { s with users := updateFirst (fun v => v.user_id == u.user_id) (fun _ => u) s.users }
  else
    { s with users := s.users ++ [u] }

/-- `add_group`: upsert of `{chat_id, title}` keyed by `chat_id`. -/
def add_group (g : GroupDoc) (s : Store) : Store :=
  if s.groups.any (fun h => h.chat_id == g.chat_id) then
    { s with groups := updateFirst (fun h => h.chat_id == g.chat_id) (fun _ => g) s.groups }
  else
    { s with groups := s.groups ++ [g] }

/-- `add_warning(user_id, chat_id, reason)`: plain insert of one warning
document with `timestamp = int(time.time())`, passed here as `now`. -/
def add_warning (uid cid now : Int) (reason : String) (s : Store) : Store :=
  { s with warnings := s.warnings ++ [⟨uid, cid, now, reason⟩] }

/-- `get_warnings(user_id)`: `warnings_col.find({"user_id": user_id}).sort("timestamp", -1)` —
all warnings of the user, sorted by timestamp descending. -/
def get_warnings (uid : Int) (s : Store) : List WarningDoc :=
  (s.warnings.filter (fun w => w.user_id == uid)).mergeSort
    (fun a b => b.timestamp ≤ a.timestamp)

/-- `get_group_title(chat_id)`: the `title` field of the first matching
group document, or `None`. -/
def get_group_title (cid : Int) (s : Store) : Option String :=
  match s.groups.find? (fun g => g.chat_id == cid) with
  | none => none
  | some g => g.title

/-- Total number of warning documents with the given `user_id`
(the `count` computed by the `$group` stage of `get_top_warned_users`). -/
def warnCount (uid : Int) (s : Store) : Nat :=
  (s.warnings.filter (fun w => w.user_id == uid)).length

/-- `get_top_warned_users(limit)`: the aggregation pipeline
`$group` by `user_id` with `count = $sum 1`, `$sort` by `count` descending,
`$limit`. -/
def get_top_warned_users (limit : Nat) (s : Store) : List (Int × Nat) :=
  let ids := (s.warnings.map (fun w => w.user_id)).dedup
  ((ids.map (fun uid => (uid, warnCount uid s))).mergeSort
    (fun a b => b.2 ≤ a.2)).take limit

/-- `get_users_with_no_warnings()`: the distinct `user_id`s of the warnings
collection, then `users_col.find({"user_id": {"$nin": warned_user_ids}})`. -/
def get_users_with_no_warnings (s : Store) : List UserDoc :=
  let warned_user_ids := (s.warnings.map (fun w => w.user_id)).dedup
  s.users.filter (fun u => !(warned_user_ids.contains u.user_id))

/-- `clear_warnings(user_id)`: `warnings_col.delete_many({"user_id": user_id})`. -/
def clear_warnings (uid : Int) (s : Store) : Store :=
  { s with warnings := s.warnings.filter (fun w => !(w.user_id == uid)) }

/-- `is_admin`: the remote `get_member` lookup is the oracle argument —
`some status` when the call succeeds with that role string, `none` when it
raises.  The source returns `status in ["administrator", "creator"]` on
success and `False` on any exception. -/
def is_admin (roleLookup : Option String) : Bool :=
  match roleLookup with
  | some status => status == "administrator" || status == "creator"
  | none => false

example : is_admin (some "administrator") = true := by decide
example : is_admin (some "member") = false := by decide
example : is_admin none = false := by decide

/-- The ASCII apostrophe character, kept out of literals. -/
def aposChar : Char := Char.ofNat 39

/-- The ASCII double-quote character. -/
def quotChar : Char := Char.ofNat 34

/-- The ASCII apostrophe as a one-character string. -/
def aposStr : String := String.singleton aposChar

/-- Python `html.escape` on one character (quote=True escapes both quote
characters as well as `&`, `<`, `>`). -/
def html_escape_char (c : Char) : String :=
  if c = '&' then "&amp;"
  else if c = '<' then "&lt;"
  else if c = '>' then "&gt;"
  else if c = quotChar then "&quot;"
  else if c = aposChar then "&#x27;"
  else String.singleton c

/-- Python `html.escape(s)`. -/
def html_escape (s : String) : String :=
  String.join (s.toList.map html_escape_char)

/-- Python truthiness of `user.first_name or "Utente"`: `None` and the
empty string both fall back to the default. -/
def firstNameOrDefault (u : UserDoc) : String :=
  match u.first_name with
  | none => "Utente"
  | some s => if s = "" then "Utente" else s

/-- `get_user_mention(user)`: an HTML link
`<a href=(apos)tg://user?id=ID(apos)>NAME</a>` with the escaped first name. -/
def get_user_mention (u : UserDoc) : String :=
  "<a href=" ++ aposStr ++ "tg://user?id=" ++ toString u.user_id ++ aposStr ++ ">"
    ++ html_escape (firstNameOrDefault u) ++ "</a>"

/-- Python `str.isdigit` restricted to ASCII: nonempty and all digits. -/
def str_isdigit (s : String) : Bool :=
  s.length != 0 && s.toList.all Char.isDigit

/-- Python `int(...)` on an all-digit string: the base-10 value of its
digits. -/
def str_toNat (s : String) : Nat :=
  s.toList.foldl (fun n c => n * 10 + (c.toNat - '0'.toNat)) 0

/-- The default reason of the `/punto` handler. -/
def defaultReason : String := "Nessun motivo fornito."

/-- The argument parsing of the `warn` handler: a leading all-digit token is
the amount (`int(args[0])`) and the rest of the tokens, if any, joined by a
space are the reason; otherwise everything is the reason; no arguments keep
`amount = 1` and the default reason. -/
def parseWarnArgs (args : List String) : Nat × String :=
  match args with
  | [] => (1, defaultReason)
  | a :: rest =>
    if str_isdigit a then
      (str_toNat a, if rest.isEmpty then defaultReason else String.intercalate " " rest)
    else
      (1, String.intercalate " " args)

/-- The body `for _ in range(amount): add_warning(...)` of the `warn`
handler: `n` identical inserts (same second, hence one shared timestamp). -/
def addWarnings (uid cid now : Int) (reason : String) : Nat → Store → Store
  | 0, s => s
  | n + 1, s => addWarnings uid cid now reason n (add_warning uid cid now reason s)

/-- The fixed reply of every admin-only handler to a non-admin caller. -/
def unauthorizedMsg : String := "Solo gli amministratori possono usare questo comando."

/-- The outcome of one handler invocation: the store after it ran and the
text of the reply it sent. -/
structure HandlerResult where
  store : Store
  reply : String
deriving Repr, DecidableEq

/-- The `warn` handler (`/punto`).  `roleLookup` is the `get_member` oracle
of `is_admin`; `replyTarget` is `update.message.reply_to_message.from_user`
(absent when the command is not a reply); `args` is `context.args`; `cid`
is `update.effective_chat.id`; `now` is `int(time.time())`. -/
def warn (roleLookup : Option String) (replyTarget : Option UserDoc)
    (args : List String) (cid now : Int) (s : Store) : HandlerResult :=
  if !(is_admin roleLookup) then
    ⟨s, unauthorizedMsg⟩
  else
    match replyTarget with
    | none => ⟨s, "Rispondi a un messaggio per assegnare un punto."⟩
    | some warned_user =>
      let parsed := parseWarnArgs args
      let amount := Nat.max 1 (Nat.min parsed.1 100)
      let reason := parsed.2
      let s1 := add_user warned_user s
      let s2 := addWarnings warned_user.user_id cid now reason amount s1
      let warn_count := (get_warnings warned_user.user_id s2).length
      ⟨s2, "+1 punto per " ++ get_user_mention warned_user ++ ".\nTotale punti: <b>"
        ++ toString warn_count ++ "</b>"⟩

/-- The `clear_warnings_command` handler (`/clearwarnings`). -/
def clear_warnings_command (roleLookup : Option String)
    (replyTarget : Option UserDoc) (s : Store) : HandlerResult :=
  if !(is_admin roleLookup) then
    ⟨s, unauthorizedMsg⟩
  else
    match replyTarget with
    | none => ⟨s, "Rispondi a un messaggio per pulire i punti di quell’utente."⟩
    | some user =>
      ⟨clear_warnings user.user_id s,
        "✅ Tutti i punti per " ++ get_user_mention user ++ " sono stati rimossi."⟩

/-- One displayed line of the `/warnings` listing: timestamp formatted by
the `fmtTime` oracle (`datetime.strftime`), the group title when the group
is known and its title truthy, then the escaped reason. -/
def warningLine (fmtTime : Int → String) (s : Store) (w : WarningDoc) : String :=
  let group_info :=
    match get_group_title w.chat_id s with
    | none => ""
    | some t => if t = "" then "" else " in " ++ t
  "- " ++ fmtTime w.timestamp ++ group_info ++ ": " ++ html_escape w.reason ++ "\n"

/-- The `warnings_command` handler (`/warnings`).  `getChat` is the
`context.bot.get_chat` oracle (`none` models the raised exception);
`caller` is `update.effective_user`; `fmtTime` models
`datetime.fromtimestamp(..).strftime(..)`.  The store is never written. -/
def warnings_command (roleLookup : Option String) (replyTarget : Option UserDoc)
    (args : List String) (getChat : Int → Option UserDoc) (caller : UserDoc)
    (fmtTime : Int → String) (s : Store) : HandlerResult :=
  if !(is_admin roleLookup) then
    ⟨s, unauthorizedMsg⟩
  else
    let resolved : Option (Int × String) :=
      match replyTarget with
      | some u => some (u.user_id, get_user_mention u)
      | none =>
        match args with
        | a :: _ =>
          match a.toInt? with
          | none => none
          | some uid =>
            match getChat uid with
            | none => none
            | some info => some (uid, get_user_mention info)
        | [] => some (caller.user_id, get_user_mention caller)
    match resolved with
    | none => ⟨s, "Utente non trovato o ID non valido."⟩
    | some (uid, mention) =>
      let warnings_data := get_warnings uid s
      if warnings_data.isEmpty then
        ⟨s, mention ++ " non ha ancora punti."⟩
      else
        ⟨s, "📋 Punti per " ++ mention ++ ":\n"
          ++ String.join (warnings_data.map (warningLine fmtTime s))⟩

/-- A remote moderation call issued by the sweep against the chat platform. -/
inductive Call where
  | ban (chat_id user_id : Int)
  | unban (chat_id user_id : Int)
deriving Repr, DecidableEq

/-- The `try` block of the sweep for one (group, user) pair:
`ban_chat_member` is always called; when it succeeds (`banOk`),
`unban_chat_member` is called next.  A failure of either call is caught by
the `except` clause, so no failure escapes the pair. -/
def removeCalls (banOk : Int → Int → Bool) (cid uid : Int) : List Call :=
  if banOk cid uid then [Call.ban cid uid, Call.unban cid uid]
  else [Call.ban cid uid]

/-- `warnings_col.find_one({"user_id": user_id, "timestamp": {"$gte": one_day_ago}})`
is truthy: some warning of the user — in any chat — has
`timestamp ≥ cutoff`. -/
def hasRecentWarning (s : Store) (cutoff uid : Int) : Bool :=
  s.warnings.any (fun w => w.user_id == uid && cutoff ≤ w.timestamp)

/-- The calls the sweep issues for one user: none when a recent warning
exists, otherwise a removal attempt in every tracked group. -/
def sweepUserCalls (banOk : Int → Int → Bool) (s : Store) (cutoff uid : Int) :
    List Call :=
  if hasRecentWarning s cutoff uid then []
  else (s.groups.map (fun g => removeCalls banOk g.chat_id uid)).flatten

/-- The remote calls issued by one iteration of the `while True` body of
`auto_ban_inactive_users`, with `one_day_ago = now - 24 * 60 * 60`,
assuming the collection queries succeed. -/
def auto_ban_cycle_calls (banOk : Int → Int → Bool) (s : Store) (now : Int) :
    List Call :=
  (s.users.map (fun u => sweepUserCalls banOk s (now - 24 * 60 * 60) u.user_id)).flatten

/-- Which collection queries succeed during a sweep cycle (`find`,
`find_one` raise on connectivity failure). -/
structure DBOracle where
  usersQueryOk : Bool
  warningsQueryOk : Bool
  groupsQueryOk : Bool
deriving Repr, DecidableEq

/-- Per-user body of the sweep with fallible queries.  The source wraps
only `ban`/`unban` in `try`, so a failing `warnings_col.find_one` or
`groups_col.find` raises out of the body (`Except.error`). -/
def sweepUserE (ora : DBOracle) (banOk : Int → Int → Bool) (s : Store)
    (cutoff uid : Int) : Except String (List Call) :=
  if !ora.warningsQueryOk then .error "warnings query failed"
  else if hasRecentWarning s cutoff uid then .ok []
  else if !ora.groupsQueryOk then .error "groups query failed"
  else .ok ((s.groups.map (fun g => removeCalls banOk g.chat_id uid)).flatten)

/-- The `for user in all_users` loop with fallible queries: the first
raised query exception aborts the whole loop. -/
def sweepUsersE (ora : DBOracle) (banOk : Int → Int → Bool) (s : Store)
    (cutoff : Int) : List UserDoc → Except String (List Call)
  | [] => .ok []
  | u :: rest =>
    match sweepUserE ora banOk s cutoff u.user_id with
    | .error e => .error e
    | .ok c =>
      match sweepUsersE ora banOk s cutoff rest with
      | .error e => .error e
      | .ok cs => .ok (c ++ cs)

/-- One iteration of `auto_ban_inactive_users` with fallible collection
queries.  There is no `try` around `users_col.find()` or the loop, so an
`Except.error` here models the exception propagating out of the
`while True` loop: the background task terminates and never sleeps or
retries. -/
def auto_ban_cycle (ora : DBOracle) (banOk : Int → Int → Bool) (s : Store)
    (now : Int) : Except String (List Call) :=
  if !ora.usersQueryOk then .error "users query failed"
  else sweepUsersE ora banOk s (now - 24 * 60 * 60) s.users

/-- The chat a call is addressed to. -/
def callChat : Call → Int
  | .ban c _ => c
  | .unban c _ => c

/-- The user a call is about. -/
def callUser : Call → Int
  | .ban _ u => u
  | .unban _ u => u

/-- The subsequence of calls addressed to one (group, user) pair, in issue
order. -/
def pairCalls (cid uid : Int) (l : List Call) : List Call :=
  l.filter (fun c => callChat c == cid && callUser c == uid)

lemma pairCalls_append (cid uid : Int) (l1 l2 : List Call) :
    pairCalls cid uid (l1 ++ l2) = pairCalls cid uid l1 ++ pairCalls cid uid l2 := by
  simp [pairCalls, List.filter_append]

lemma pairCalls_flatten (cid uid : Int) (L : List (List Call)) :
    pairCalls cid uid L.flatten = (L.map (pairCalls cid uid)).flatten := by
  induction L with
  | nil => rfl
  | cons h t ih => simp [List.flatten_cons, pairCalls_append, ih]

lemma flatten_map_eq_nil {α β : Type} (f : β → List α) (l : List β)
    (h : ∀ y ∈ l, f y = []) : (l.map f).flatten = [] := by
  induction l with
  | nil => rfl
  | cons y t ih =>
    simp only [List.map_cons, List.flatten_cons]
    rw [h y (List.mem_cons_self y t), ih (fun z hz => h z (List.mem_cons_of_mem y hz))]
    rfl

/-- When `f` factors through a key that is unique in `l` and vanishes off
the key of `x`, the flattened image collapses to `f x`. -/
lemma flatten_map_eq_single {α β : Type} (f : β → List α) (key : β → Int) (k : Int)
    (x : β) (l : List β) (hx : x ∈ l) (hk : key x = k)
    (hnd : (l.map key).Nodup)
    (hf : ∀ y, key y = k → f y = f x)
    (hother : ∀ y, key y ≠ k → f y = []) :
    (l.map f).flatten = f x := by
  induction l with
  | nil => cases hx
  | cons y t ih =>
    simp only [List.map_cons, List.nodup_cons] at hnd
    simp only [List.map_cons, List.flatten_cons]
    by_cases hy : key y = k
    · have hyt : ∀ z ∈ t, f z = [] := by
        intro z hz
        apply hother
        intro hzk
        exact hnd.1 (by rw [hy, ← hzk]; exact List.mem_map_of_mem key hz)
      rw [hf y hy, flatten_map_eq_nil f t hyt, List.append_nil]
    · have hxt : x ∈ t := by
        rcases List.mem_cons.mp hx with h | h
        · exact absurd (h ▸ hk) hy
        · exact h
      rw [hother y hy, List.nil_append]
      exact ih hxt hnd.2

lemma pairCalls_removeCalls (banOk : Int → Int → Bool) (cid uid cid2 uid2 : Int) :
    pairCalls cid uid (removeCalls banOk cid2 uid2) =
      if cid2 = cid ∧ uid2 = uid then removeCalls banOk cid2 uid2 else [] := by
  by_cases h1 : cid2 = cid
  · subst h1
    by_cases h2 : uid2 = uid
    · subst h2
      by_cases hb : banOk cid2 uid2 <;>
        simp [pairCalls, removeCalls, hb, callChat, callUser]
    · by_cases hb : banOk cid2 uid2 <;>
        simp [pairCalls, removeCalls, hb, callChat, callUser, h2]
  · by_cases hb : banOk cid2 uid2 <;>
      simp [pairCalls, removeCalls, hb, callChat, callUser, h1]

lemma pairCalls_sweepUserCalls_ne (banOk : Int → Int → Bool) (s : Store)
    (cutoff cid uid uid2 : Int) (h : uid2 ≠ uid) :
    pairCalls cid uid (sweepUserCalls banOk s cutoff uid2) = [] := by
  unfold sweepUserCalls
  split
  · rfl
  · rw [pairCalls_flatten, List.map_map]
    exact flatten_map_eq_nil _ _ (fun g _ => by
      simp [Function.comp, pairCalls_removeCalls, h])

lemma pairCalls_sweepUserCalls_self (banOk : Int → Int → Bool) (s : Store)
    (cutoff : Int) (g : GroupDoc) (uid : Int)
    (hg : g ∈ s.groups) (hnd : (s.groups.map GroupDoc.chat_id).Nodup)
    (hban : banOk g.chat_id uid = true) :
    pairCalls g.chat_id uid (sweepUserCalls banOk s cutoff uid) =
      if hasRecentWarning s cutoff uid then []
      else [Call.ban g.chat_id uid, Call.unban g.chat_id uid] := by
  cases hw : hasRecentWarning s cutoff uid with
  | true => simp [sweepUserCalls, pairCalls, hw]
  | false =>
    have step : sweepUserCalls banOk s cutoff uid
        = (s.groups.map (fun g2 : GroupDoc => removeCalls banOk g2.chat_id uid)).flatten := by
      simp [sweepUserCalls, hw]
    rw [step, pairCalls_flatten, List.map_map]
    have hcollapse := flatten_map_eq_single
      (fun g2 : GroupDoc => pairCalls g.chat_id uid (removeCalls banOk g2.chat_id uid))
      GroupDoc.chat_id g.chat_id g s.groups hg rfl hnd
      (fun g2 h2 => by dsimp only; rw [h2])
      (fun g2 h2 => by dsimp only; rw [pairCalls_removeCalls]; simp [h2])
    rw [show (pairCalls g.chat_id uid ∘ fun g2 : GroupDoc => removeCalls banOk g2.chat_id uid)
        = (fun g2 : GroupDoc => pairCalls g.chat_id uid (removeCalls banOk g2.chat_id uid))
        from rfl]
    rw [hcollapse]
    dsimp only
    rw [pairCalls_removeCalls]
    simp [removeCalls, hban]

lemma hasRecentWarning_iff (s : Store) (cutoff uid : Int) :
    hasRecentWarning s cutoff uid = true ↔
      ∃ w ∈ s.warnings, w.user_id = uid ∧ cutoff ≤ w.timestamp := by
  simp [hasRecentWarning]

lemma ban_mem_removeCalls (banOk : Int → Int → Bool) (cid uid : Int) :
    Call.ban cid uid ∈ removeCalls banOk cid uid := by
  unfold removeCalls
  split <;> simp

lemma sweepUserE_allOk (banOk : Int → Int → Bool) (s : Store) (cutoff uid : Int) :
    sweepUserE ⟨true, true, true⟩ banOk s cutoff uid
      = Except.ok (sweepUserCalls banOk s cutoff uid) := by
  cases hw : hasRecentWarning s cutoff uid <;> simp [sweepUserE, sweepUserCalls, hw]

lemma sweepUsersE_allOk (banOk : Int → Int → Bool) (s : Store) (cutoff : Int)
    (l : List UserDoc) :
    sweepUsersE ⟨true, true, true⟩ banOk s cutoff l
      = Except.ok ((l.map (fun u => sweepUserCalls banOk s cutoff u.user_id)).flatten) := by
  induction l with
  | nil => rfl
  | cons u t ih => simp [sweepUsersE, sweepUserE_allOk, ih, List.flatten_cons]

lemma auto_ban_cycle_allOk (banOk : Int → Int → Bool) (s : Store) (now : Int) :
    auto_ban_cycle ⟨true, true, true⟩ banOk s now
      = Except.ok (auto_ban_cycle_calls banOk s now) := by
  simp [auto_ban_cycle, sweepUsersE_allOk, auto_ban_cycle_calls]

/-- Example documents used to exercise the theorems on concrete inputs. -/
def wU1 : UserDoc := ⟨1, none, some "Anna", none⟩

def wU2 : UserDoc := ⟨2, none, some "Beppe", none⟩

def wG1 : GroupDoc := ⟨100, some "G1"⟩

def wG2 : GroupDoc := ⟨200, some "G2"⟩

/-- Example store: two tracked users, two tracked groups, one warning for
user 2 issued in an untracked chat 300 within the trailing day of
`now = 1000000`. -/
def wStore : Store := ⟨[wU1, wU2], [⟨2, 300, 999900, "spam"⟩], [wG1, wG2]⟩

/-- C1: in one sweep cycle, a tracked (user, group) pair gets exactly one
ban immediately followed by one unban when the user has no warning in any
chat with `timestamp ≥ now - 86400`, and no ban/unban call at all when such
a warning exists; the recency test ranges over all warnings of the user
regardless of chat. -/
theorem auto_ban_kick_iff_no_recent_warning
    (banOk : Int → Int → Bool) (s : Store) (now : Int) (u : UserDoc) (g : GroupDoc)
    (hu : u ∈ s.users) (hg : g ∈ s.groups)
    (hndu : (s.users.map UserDoc.user_id).Nodup)
    (hndg : (s.groups.map GroupDoc.chat_id).Nodup)
    (hban : banOk g.chat_id u.user_id = true) :
    (pairCalls g.chat_id u.user_id (auto_ban_cycle_calls banOk s now) =
      if hasRecentWarning s (now - 86400) u.user_id then []
      else [Call.ban g.chat_id u.user_id, Call.unban g.chat_id u.user_id]) ∧
    (hasRecentWarning s (now - 86400) u.user_id = true ↔
      ∃ w ∈ s.warnings, w.user_id = u.user_id ∧ now - 86400 ≤ w.timestamp) := by
  have e : now - 24 * 60 * 60 = now - 86400 := by norm_num
  constructor
  · have step : auto_ban_cycle_calls banOk s now
        = (s.users.map (fun u2 : UserDoc =>
            sweepUserCalls banOk s (now - 86400) u2.user_id)).flatten := by
      simp [auto_ban_cycle_calls, e]
    rw [step, pairCalls_flatten, List.map_map]
    have hcollapse := flatten_map_eq_single
      (fun u2 : UserDoc => pairCalls g.chat_id u.user_id
        (sweepUserCalls banOk s (now - 86400) u2.user_id))
      UserDoc.user_id u.user_id u s.users hu rfl hndu
      (fun u2 h2 => by dsimp only; rw [h2])
      (fun u2 h2 => by
        dsimp only
        exact pairCalls_sweepUserCalls_ne banOk s (now - 86400) g.chat_id u.user_id
          u2.user_id h2)
    rw [show (pairCalls g.chat_id u.user_id ∘ fun u2 : UserDoc =>
        sweepUserCalls banOk s (now - 86400) u2.user_id)
        = (fun u2 : UserDoc => pairCalls g.chat_id u.user_id
            (sweepUserCalls banOk s (now - 86400) u2.user_id)) from rfl]
    rw [hcollapse]
    dsimp only
    exact pairCalls_sweepUserCalls_self banOk s (now - 86400) g u.user_id hg hndg hban
  · exact hasRecentWarning_iff s (now - 86400) u.user_id

/-- Witness for C1 at the example store: user 1 (no warning at all) is
kicked from group 100, while the iff shows user 2 is shielded by a
warning from the untracked chat 300. -/
theorem auto_ban_kick_iff_no_recent_warning_witness :
    pairCalls 100 1 (auto_ban_cycle_calls (fun _ _ => true) wStore 1000000)
      = [Call.ban 100 1, Call.unban 100 1] ∧
    pairCalls 100 2 (auto_ban_cycle_calls (fun _ _ => true) wStore 1000000) = [] := by
  have h1 := auto_ban_kick_iff_no_recent_warning (fun _ _ => true) wStore 1000000 wU1 wG1
    (by decide) (by decide) (by decide) (by decide) rfl
  have h2 := auto_ban_kick_iff_no_recent_warning (fun _ _ => true) wStore 1000000 wU2 wG1
    (by decide) (by decide) (by decide) (by decide) rfl
  constructor
  · rw [show (100 : Int) = wG1.chat_id from rfl, show (1 : Int) = wU1.user_id from rfl,
      h1.1]
    rfl
  · rw [show (100 : Int) = wG1.chat_id from rfl, show (2 : Int) = wU2.user_id from rfl,
      h2.1]
    rfl

/-- C2: the ban call for a pair is issued by the cycle no matter which
other remote calls fail (`banOk` is arbitrary), and a cycle whose
collection queries succeed never fails, whatever the ban/unban outcomes:
per-pair failures are caught by the `try`/`except` of the group loop. -/
theorem sweep_group_failure_isolated
    (banOk : Int → Int → Bool) (s : Store) (now : Int) (u : UserDoc) (g : GroupDoc)
    (hu : u ∈ s.users) (hg : g ∈ s.groups)
    (hw : hasRecentWarning s (now - 24 * 60 * 60) u.user_id = false) :
    Call.ban g.chat_id u.user_id ∈ auto_ban_cycle_calls banOk s now ∧
    auto_ban_cycle ⟨true, true, true⟩ banOk s now
      = Except.ok (auto_ban_cycle_calls banOk s now) := by
  refine ⟨?_, auto_ban_cycle_allOk banOk s now⟩
  unfold auto_ban_cycle_calls
  rw [List.mem_flatten]
  refine ⟨sweepUserCalls banOk s (now - 24 * 60 * 60) u.user_id,
    List.mem_map_of_mem _ hu, ?_⟩
  unfold sweepUserCalls
  rw [hw]
  simp only [Bool.false_eq_true, if_false]
  rw [List.mem_flatten]
  exact ⟨removeCalls banOk g.chat_id u.user_id,
    List.mem_map_of_mem _ hg, ban_mem_removeCalls banOk g.chat_id u.user_id⟩

/-- Witness for C2: with the ban against group 100 failing, the ban call
against group 200 for user 1 is still issued in the same cycle. -/
theorem sweep_group_failure_isolated_witness :
    Call.ban 200 1 ∈ auto_ban_cycle_calls (fun cid _ => cid != 100) wStore 1000000 :=
  (sweep_group_failure_isolated (fun cid _ => cid != 100) wStore 1000000 wU1 wG2
    (by decide) (by decide) (by decide)).1

/-- C3 counterexample: a failing `users_col.find()` is not caught — the
cycle ends in an error instead of being skipped, so the exception escapes
the `while True` loop and the background task terminates. -/
theorem sweep_query_failure_not_caught :
    auto_ban_cycle ⟨false, true, true⟩ (fun _ _ => true) wStore 1000000
      = Except.error "users query failed" := by
  rfl

/-- C3 amended: a collection-query failure propagates out of the sweep
body as an error (the task dies; no sleep-and-retry), while a cycle with
working queries always completes normally no matter which ban/unban calls
fail. -/
lemma sweepUserE_warnings_fail (ora : DBOracle) (banOk : Int → Int → Bool)
    (s : Store) (cutoff uid : Int) (h : ora.warningsQueryOk = false) :
    sweepUserE ora banOk s cutoff uid = Except.error "warnings query failed" := by
  simp [sweepUserE, h]

lemma sweepUsersE_warnings_fail (ora : DBOracle) (banOk : Int → Int → Bool)
    (s : Store) (cutoff : Int) (u : UserDoc) (t : List UserDoc)
    (h : ora.warningsQueryOk = false) :
    sweepUsersE ora banOk s cutoff (u :: t) = Except.error "warnings query failed" := by
  simp [sweepUsersE, sweepUserE_warnings_fail ora banOk s cutoff u.user_id h]

lemma sweepUsersE_groups_fail (ora : DBOracle) (banOk : Int → Int → Bool)
    (s : Store) (cutoff : Int) (h2 : ora.warningsQueryOk = true)
    (h3 : ora.groupsQueryOk = false) (l : List UserDoc) (u : UserDoc) (hu : u ∈ l)
    (hw : hasRecentWarning s cutoff u.user_id = false) :
    sweepUsersE ora banOk s cutoff l = Except.error "groups query failed" := by
  induction l with
  | nil => cases hu
  | cons y t ih =>
    by_cases hy : hasRecentWarning s cutoff y.user_id
    · have hut : u ∈ t := by
        rcases List.mem_cons.mp hu with rfl | h
        · rw [hw] at hy
          simp at hy
        · exact h
      simp [sweepUsersE, sweepUserE, h2, hy, ih hut]
    · have hyf : hasRecentWarning s cutoff y.user_id = false := by
        cases hq : hasRecentWarning s cutoff y.user_id
        · rfl
        · exact absurd hq hy
      simp [sweepUsersE, sweepUserE, h2, hyf, h3]

/-- C3 amended: none of the three collection queries of the sweep is
protected by a `try`: a failing users query aborts the cycle at once, a
failing warnings query aborts it as soon as one tracked user is processed,
and a failing groups query aborts it as soon as some tracked user without
a recent warning is processed — each time the exception escapes the
`while True` body and the task terminates without sleeping or retrying.
Only ban/unban failures are caught: with working queries the cycle always
completes normally. -/
theorem sweep_query_failure_propagates
    (ora : DBOracle) (banOk : Int → Int → Bool) (s : Store) (now : Int) :
    (ora.usersQueryOk = false →
      auto_ban_cycle ora banOk s now = Except.error "users query failed") ∧
    (ora.usersQueryOk = true → ora.warningsQueryOk = false → s.users ≠ [] →
      auto_ban_cycle ora banOk s now = Except.error "warnings query failed") ∧
    (ora.usersQueryOk = true → ora.warningsQueryOk = true →
      ora.groupsQueryOk = false →
      (∃ u ∈ s.users, hasRecentWarning s (now - 24 * 60 * 60) u.user_id = false) →
      auto_ban_cycle ora banOk s now = Except.error "groups query failed") ∧
    auto_ban_cycle ⟨true, true, true⟩ banOk s now
      = Except.ok (auto_ban_cycle_calls banOk s now) := by
  refine ⟨?_, ?_, ?_, auto_ban_cycle_allOk banOk s now⟩
  · intro h
    simp [auto_ban_cycle, h]
  · intro h1 h2 h3
    simp only [auto_ban_cycle, h1, Bool.not_true, Bool.false_eq_true, if_false]
    cases hu : s.users with
    | nil => exact absurd hu h3
    | cons u t => exact sweepUsersE_warnings_fail ora banOk s _ u t h2
  · rintro h1 h2 h3 ⟨u, hu, hw⟩
    simp only [auto_ban_cycle, h1, Bool.not_true, Bool.false_eq_true, if_false]
    exact sweepUsersE_groups_fail ora banOk s _ h2 h3 s.users u hu hw

/-- Witness for the amended C3 at the example store: each of the three
query failures aborts the cycle with the matching error. -/
theorem sweep_query_failure_propagates_witness :
    auto_ban_cycle ⟨false, true, true⟩ (fun _ _ => false) wStore 1000000
      = Except.error "users query failed" ∧
    auto_ban_cycle ⟨true, false, true⟩ (fun _ _ => false) wStore 1000000
      = Except.error "warnings query failed" ∧
    auto_ban_cycle ⟨true, true, false⟩ (fun _ _ => false) wStore 1000000
      = Except.error "groups query failed" :=
  ⟨(sweep_query_failure_propagates ⟨false, true, true⟩ (fun _ _ => false) wStore
      1000000).1 rfl,
   (sweep_query_failure_propagates ⟨true, false, true⟩ (fun _ _ => false) wStore
      1000000).2.1 rfl rfl (by decide),
   (sweep_query_failure_propagates ⟨true, true, false⟩ (fun _ _ => false) wStore
      1000000).2.2.1 rfl rfl rfl ⟨wU1, by decide, by decide⟩⟩

lemma add_user_warnings (u : UserDoc) (s : Store) :
    (add_user u s).warnings = s.warnings := by
  unfold add_user
  split <;> rfl

lemma add_user_groups (u : UserDoc) (s : Store) :
    (add_user u s).groups = s.groups := by
  unfold add_user
  split <;> rfl

lemma addWarnings_warnings (uid cid now : Int) (r : String) (n : Nat) (s : Store) :
    (addWarnings uid cid now r n s).warnings
      = s.warnings ++ List.replicate n ⟨uid, cid, now, r⟩ := by
  induction n generalizing s with
  | zero => simp [addWarnings]
  | succ n ih =>
    simp only [addWarnings, ih, add_warning, List.replicate_succ]
    simp [List.append_assoc]

lemma addWarnings_users (uid cid now : Int) (r : String) (n : Nat) (s : Store) :
    (addWarnings uid cid now r n s).users = s.users := by
  induction n generalizing s with
  | zero => rfl
  | succ n ih => simp [addWarnings, ih, add_warning]

lemma get_warnings_congr (uid : Int) (s1 s2 : Store)
    (h : s1.warnings = s2.warnings) : get_warnings uid s1 = get_warnings uid s2 := by
  simp [get_warnings, h]

lemma get_warnings_length (uid : Int) (s : Store) :
    (get_warnings uid s).length
      = (s.warnings.filter (fun w => w.user_id == uid)).length := by
  simp [get_warnings]

lemma get_warnings_addWarnings_length (uid cid now : Int) (r : String) (n : Nat)
    (s : Store) :
    (get_warnings uid (addWarnings uid cid now r n s)).length
      = (get_warnings uid s).length + n := by
  have hrep : (List.replicate n (⟨uid, cid, now, r⟩ : WarningDoc)).filter
      (fun w => w.user_id == uid) = List.replicate n ⟨uid, cid, now, r⟩ :=
    List.filter_eq_self.mpr (fun a ha => by rw [List.eq_of_mem_replicate ha]; simp)
  simp [get_warnings_length, addWarnings_warnings, List.filter_append, hrep]

/-- C4: an admin `/punto` used as a reply parses a leading all-digit token
as the repeat count, clamps it into `[1, 100]` (amount `1` and the default
reason when no arguments), inserts exactly that many warning documents —
each with the same reason, current chat id and target user id — and
replies with the new cumulative total: the prior total plus the clamped
amount. -/
theorem warn_inserts_clamped_amount
    (roleLookup : Option String) (t : UserDoc) (args : List String)
    (cid now : Int) (s : Store) (hadmin : is_admin roleLookup = true) :
    parseWarnArgs [] = (1, defaultReason) ∧
    1 ≤ Nat.max 1 (Nat.min (parseWarnArgs args).1 100) ∧
    Nat.max 1 (Nat.min (parseWarnArgs args).1 100) ≤ 100 ∧
    (warn roleLookup (some t) args cid now s).store.warnings
      = s.warnings ++ List.replicate (Nat.max 1 (Nat.min (parseWarnArgs args).1 100))
          ⟨t.user_id, cid, now, (parseWarnArgs args).2⟩ ∧
    (get_warnings t.user_id (warn roleLookup (some t) args cid now s).store).length
      = (get_warnings t.user_id s).length + Nat.max 1 (Nat.min (parseWarnArgs args).1 100) ∧
    (warn roleLookup (some t) args cid now s).reply
      = "+1 punto per " ++ get_user_mention t ++ ".\nTotale punti: <b>"
        ++ toString ((get_warnings t.user_id s).length
            + Nat.max 1 (Nat.min (parseWarnArgs args).1 100)) ++ "</b>" := by
  have hstep : warn roleLookup (some t) args cid now s
      = ⟨addWarnings t.user_id cid now (parseWarnArgs args).2
            (Nat.max 1 (Nat.min (parseWarnArgs args).1 100)) (add_user t s),
         "+1 punto per " ++ get_user_mention t ++ ".\nTotale punti: <b>"
           ++ toString ((get_warnings t.user_id
                (addWarnings t.user_id cid now (parseWarnArgs args).2
                  (Nat.max 1 (Nat.min (parseWarnArgs args).1 100)) (add_user t s))).length)
           ++ "</b>"⟩ := by
    simp only [warn, hadmin, Bool.not_true, Bool.false_eq_true, if_false]
  have hlen : (get_warnings t.user_id
      (addWarnings t.user_id cid now (parseWarnArgs args).2
        (Nat.max 1 (Nat.min (parseWarnArgs args).1 100)) (add_user t s))).length
      = (get_warnings t.user_id s).length + Nat.max 1 (Nat.min (parseWarnArgs args).1 100) := by
    rw [get_warnings_addWarnings_length,
      get_warnings_congr t.user_id (add_user t s) s (add_user_warnings t s)]
  refine ⟨rfl, le_max_left 1 _, max_le (by norm_num) (min_le_right _ _), ?_, ?_, ?_⟩
  · rw [hstep, addWarnings_warnings, add_user_warnings]
  · rw [hstep]
    exact hlen
  · rw [hstep]
    simp only [hlen]

/-- Witness for C4: `/punto 5 spam` from a creator, replying to user 1 in
chat 100, inserts five `reason="spam"` documents and reports total 5. -/
theorem warn_inserts_clamped_amount_witness :
    (warn (some "creator") (some wU1) ["5", "spam"] 100 50 wStore).store.warnings
      = wStore.warnings ++ List.replicate 5 ⟨1, 100, 50, "spam"⟩ := by
  have h := (warn_inserts_clamped_amount (some "creator") wU1 ["5", "spam"] 100 50
    wStore rfl).2.2.2.1
  exact h.trans (by decide)

/-- C5: `is_admin` is authorized exactly on a successful role lookup
returning `administrator` or `creator` (any remote failure is
unauthorized), and a non-admin invocation of `/punto`, `/warnings` or
`/clearwarnings` gets the fixed unauthorized reply with the store left
untouched. -/
theorem is_admin_fails_closed :
    (∀ roleLookup : Option String, is_admin roleLookup = true ↔
      (roleLookup = some "administrator" ∨ roleLookup = some "creator")) ∧
    (∀ (roleLookup : Option String) (rt : Option UserDoc) (args : List String)
        (cid now : Int) (s : Store), is_admin roleLookup = false →
      warn roleLookup rt args cid now s = ⟨s, unauthorizedMsg⟩) ∧
    (∀ (roleLookup : Option String) (rt : Option UserDoc) (args : List String)
        (getChat : Int → Option UserDoc) (caller : UserDoc)
        (fmtTime : Int → String) (s : Store), is_admin roleLookup = false →
      warnings_command roleLookup rt args getChat caller fmtTime s
        = ⟨s, unauthorizedMsg⟩) ∧
    (∀ (roleLookup : Option String) (rt : Option UserDoc) (s : Store),
      is_admin roleLookup = false →
      clear_warnings_command roleLookup rt s = ⟨s, unauthorizedMsg⟩) := by
  refine ⟨?_, ?_, ?_, ?_⟩
  · intro rl
    cases rl with
    | none => simp [is_admin]
    | some r =>
      simp only [is_admin, Bool.or_eq_true, beq_iff_eq, Option.some.injEq]
  · intro rl rt args cid now s h
    simp [warn, h]
  · intro rl rt args getChat caller fmtTime s h
    simp [warnings_command, h]
  · intro rl rt s h
    simp [clear_warnings_command, h]

/-- Witness for C5: a failed role lookup (`none`) leaves every collection
of the example store untouched and yields the fixed reply, for all three
admin-only handlers. -/
theorem is_admin_fails_closed_witness :
    warn none (some wU1) ["5", "spam"] 100 50 wStore = ⟨wStore, unauthorizedMsg⟩ ∧
    warnings_command none none [] (fun _ => none) wU1 (fun _ => "") wStore
      = ⟨wStore, unauthorizedMsg⟩ ∧
    clear_warnings_command none (some wU1) wStore = ⟨wStore, unauthorizedMsg⟩ :=
  ⟨is_admin_fails_closed.2.1 none (some wU1) ["5", "spam"] 100 50 wStore rfl,
   is_admin_fails_closed.2.2.1 none none [] (fun _ => none) wU1 (fun _ => "") wStore rfl,
   is_admin_fails_closed.2.2.2 none (some wU1) wStore rfl⟩

/-- A sequence of `recordWarning` inserts applied in order. -/
def applyInserts (ops : List WarningDoc) (s : Store) : Store :=
  ops.foldl (fun st w => add_warning w.user_id w.chat_id w.timestamp w.reason st) s

lemma applyInserts_warnings (ops : List WarningDoc) (s : Store) :
    (applyInserts ops s).warnings = s.warnings ++ ops := by
  induction ops generalizing s with
  | nil => simp [applyInserts]
  | cons w t ih =>
    show (applyInserts t (add_warning w.user_id w.chat_id w.timestamp w.reason s)).warnings
      = s.warnings ++ w :: t
    rw [ih]
    simp [add_warning]

lemma get_warnings_sorted (uid : Int) (s : Store) :
    (get_warnings uid s).Pairwise (fun a b => b.timestamp ≤ a.timestamp) := by
  unfold get_warnings
  refine List.Pairwise.imp ?_
    (List.sorted_mergeSort ?_ ?_ (s.warnings.filter (fun w => w.user_id == uid)))
  · exact fun h => of_decide_eq_true h
  · intro a b c h1 h2
    simp only [decide_eq_true_eq] at h1 h2 ⊢
    omega
  · intro a b
    simp only [Bool.or_eq_true, decide_eq_true_eq]
    omega

/-- C6: starting from the empty store, after any sequence of
`add_warning` inserts the listing for a user has exactly as many entries
as there were inserts for that user, and every listing is sorted
non-increasing by timestamp. -/
theorem get_warnings_counts_inserts_sorted (ops : List WarningDoc) (uid : Int) :
    (get_warnings uid (applyInserts ops ⟨[], [], []⟩)).length
      = (ops.filter (fun w => w.user_id == uid)).length ∧
    ∀ s : Store, (get_warnings uid s).Pairwise (fun a b => b.timestamp ≤ a.timestamp) := by
  constructor
  · rw [get_warnings_length]
    rw [show (applyInserts ops ⟨[], [], []⟩).warnings = ops from by
      rw [applyInserts_warnings]
      exact List.nil_append ops]
  · exact fun s => get_warnings_sorted uid s

/-- C7: clearing the warnings of a user leaves the user with an empty listing,
and clearing twice is the same as clearing once. -/
theorem clear_warnings_empty_idempotent (uid : Int) (s : Store) :
    get_warnings uid (clear_warnings uid s) = [] ∧
    clear_warnings uid (clear_warnings uid s) = clear_warnings uid s := by
  constructor
  · have h : ((s.warnings.filter (fun w => !(w.user_id == uid))).filter
        (fun w => w.user_id == uid)) = [] := by
      induction s.warnings with
      | nil => rfl
      | cons w t ih =>
        by_cases hw : w.user_id == uid <;> simp [List.filter_cons, hw, ih]
    simp [get_warnings, clear_warnings, h]
  · simp [clear_warnings, List.filter_filter]

/-- C8: the top-warned aggregation returns at most `limit` entries, sorted
non-increasing by count, and every returned pair carries that user total
warning count across all chats. -/
theorem get_top_warned_users_spec (n : Nat) (s : Store) :
    (get_top_warned_users n s).length ≤ n ∧
    (get_top_warned_users n s).Pairwise (fun a b : Int × Nat => b.2 ≤ a.2) ∧
    ∀ p ∈ get_top_warned_users n s, p.2 = warnCount p.1 s := by
  have hdef : get_top_warned_users n s
      = ((((s.warnings.map (fun w => w.user_id)).dedup).map
          (fun uid => (uid, warnCount uid s))).mergeSort
            (fun a b => b.2 ≤ a.2)).take n := rfl
  refine ⟨?_, ?_, ?_⟩
  · rw [hdef]
    exact List.length_take_le n _
  · rw [hdef]
    refine List.Pairwise.imp (fun h => of_decide_eq_true h)
      ((List.sorted_mergeSort ?_ ?_
        (((s.warnings.map (fun w => w.user_id)).dedup).map
          (fun uid => (uid, warnCount uid s)))).sublist (List.take_sublist n _))
    · intro a b c h1 h2
      simp only [decide_eq_true_eq] at h1 h2 ⊢
      omega
    · intro a b
      simp only [Bool.or_eq_true, decide_eq_true_eq]
      omega
  · rw [hdef]
    intro p hp
    have hp2 := List.mem_of_mem_take hp
    rw [List.mem_mergeSort] at hp2
    obtain ⟨uid, _, rfl⟩ := List.mem_map.mp hp2
    rfl

/-- Witness for C8 on the example store. -/
theorem get_top_warned_users_spec_witness :
    (get_top_warned_users 1 wStore).length ≤ 1 :=
  (get_top_warned_users_spec 1 wStore).1

/-- C9: a user is listed by `get_users_with_no_warnings` exactly when it
is tracked and no warning document — in any chat — carries its id: the
result is the set difference of tracked users and warned users, hence
disjoint from the warned set. -/
theorem no_warnings_disjoint (s : Store) (u : UserDoc) :
    u ∈ get_users_with_no_warnings s ↔
      (u ∈ s.users ∧ ∀ w ∈ s.warnings, w.user_id ≠ u.user_id) := by
  simp [get_users_with_no_warnings, List.mem_filter, List.mem_dedup, List.mem_map]

/-- Witness for C9: user 1 of the example store has no warnings and is in
the difference; the reverse direction excludes warned user 2. -/
theorem no_warnings_disjoint_witness :
    wU1 ∈ get_users_with_no_warnings wStore ∧
    wU2 ∉ get_users_with_no_warnings wStore := by
  constructor
  · exact (no_warnings_disjoint wStore wU1).mpr (by decide)
  · intro h
    have h2 := (no_warnings_disjoint wStore wU2).mp h
    exact absurd h2 (by decide)

lemma updateFirst_mem {α : Type} (p : α → Bool) (x : α) (l : List α)
    (h : l.any p = true) : x ∈ updateFirst p (fun _ => x) l := by
  induction l with
  | nil => simp at h
  | cons y t ih =>
    unfold updateFirst
    by_cases hy : p y
    · simp [hy]
    · have ht : t.any p = true := by
        simp only [List.any_cons, Bool.or_eq_true] at h
        rcases h with h | h
        · exact absurd h hy
        · exact h
      simp only [hy, Bool.false_eq_true, if_false, List.mem_cons]
      exact Or.inr (ih ht)

lemma add_user_tracks (u : UserDoc) (s : Store) :
    ∃ v ∈ (add_user u s).users, v.user_id = u.user_id := by
  unfold add_user
  by_cases h : s.users.any (fun v => v.user_id == u.user_id)
  · rw [if_pos h]
    exact ⟨u, updateFirst_mem _ u s.users h, rfl⟩
  · rw [if_neg h]
    exact ⟨u, by simp, rfl⟩

lemma warn_admin_store (roleLookup : Option String) (t : UserDoc)
    (args : List String) (cid now : Int) (s : Store)
    (hadmin : is_admin roleLookup = true) :
    (warn roleLookup (some t) args cid now s).store
      = addWarnings t.user_id cid now (parseWarnArgs args).2
          (Nat.max 1 (Nat.min (parseWarnArgs args).1 100)) (add_user t s) := by
  simp only [warn, hadmin, Bool.not_true, Bool.false_eq_true, if_false]

/-- C10: a successful `/punto` upserts the target into the users
collection, so afterwards the target is tracked and every warning the
invocation inserted carries a `user_id` present in the users
collection. -/
theorem warn_tracks_target
    (roleLookup : Option String) (t : UserDoc) (args : List String)
    (cid now : Int) (s : Store) (hadmin : is_admin roleLookup = true) :
    (∃ v ∈ (warn roleLookup (some t) args cid now s).store.users,
      v.user_id = t.user_id) ∧
    ∀ w ∈ (warn roleLookup (some t) args cid now s).store.warnings,
      w ∉ s.warnings →
        ∃ v ∈ (warn roleLookup (some t) args cid now s).store.users,
          v.user_id = w.user_id := by
  constructor
  · rw [warn_admin_store roleLookup t args cid now s hadmin, addWarnings_users]
    exact add_user_tracks t s
  · intro w hw hnot
    rw [warn_admin_store roleLookup t args cid now s hadmin,
      addWarnings_warnings, add_user_warnings] at hw
    rcases List.mem_append.mp hw with h1 | h1
    · exact absurd h1 hnot
    · have hwd : w = ⟨t.user_id, cid, now, (parseWarnArgs args).2⟩ :=
        List.eq_of_mem_replicate h1
      rw [warn_admin_store roleLookup t args cid now s hadmin, addWarnings_users]
      obtain ⟨v, hv, hvid⟩ := add_user_tracks t s
      exact ⟨v, hv, by rw [hvid, hwd]⟩

/-- Witness for C10: after an admin `/punto` on user 1, user 1 is tracked. -/
theorem warn_tracks_target_witness :
    ∃ v ∈ (warn (some "administrator") (some wU1) [] 100 50 wStore).store.users,
      v.user_id = wU1.user_id :=
  (warn_tracks_target (some "administrator") wU1 [] 100 50 wStore rfl).1

